import Mathlib

set_option exponentiation.threshold 1100
set_option maxRecDepth 8192

/-!
Verification of the trace_extractor pipeline.

The development shallowly embeds the four modules of the program:
`input_file_sanitizing.py`, `data_extract.py`, `data_transform.py` and
`entry_point.py`.  Filesystem queries, the external ffprobe subprocess and
the JSON decoder are boundary collaborators and are modelled as explicit
function parameters (oracles); everything else is translated directly from
the source.  Exceptions are modelled with `Except`: a `.error` value is an
exception escaping the translated code, and an exception handler in the
source becomes a `match` on the corresponding error constructor.
-/

/-- Python exceptions that the translated code can raise or catch.
`valueError` models `ValueError`, `keyError` models `KeyError` (raised by a
failed dict subscript), `typeError` models `TypeError` (bad operand type),
`osError` models `OSError` and its subclasses such as `FileNotFoundError`
and `FileExistsError`, and `overflowError` models `OverflowError` (raised
by `float` on an oversized integer and by `math.trunc` on an infinity). -/
inductive PyExc where
  | keyError
  | valueError
  | typeError
  | osError
  | overflowError
deriving DecidableEq

/-- Python values as decoded from JSON by `json.loads`: strings, integers,
lists and string-keyed dicts.  This covers every shape the pipeline reads
from the ffprobe output. -/
inductive PyVal where
  | pyStr (s : String)
  | pyInt (n : Int)
  | pyList (xs : List PyVal)
  | pyDict (entries : List (String × PyVal))

/-- Python truthiness (`if not x`): empty strings, zero, empty lists and
empty dicts are falsy. -/
def pyTruthy : PyVal → Bool
  | .pyStr s => !s.data.isEmpty
  | .pyInt n => n != 0
  | .pyList xs => !xs.isEmpty
  | .pyDict es => !es.isEmpty

/-- Python subscript `v[key]` with a string key: a dict lookup raises
`KeyError` when the key is absent; subscripting a non-dict with a string
raises `TypeError`. -/
def pySubscript (v : PyVal) (key : String) : Except PyExc PyVal :=
  match v with
  | .pyDict entries =>
    match entries.lookup key with
    | some x => .ok x
    | none => .error .keyError
  | _ => .error .typeError

/-- Python iteration `for x in v`: lists yield their elements, strings yield
one-character strings, dicts yield their keys, and integers raise
`TypeError`. -/
def pyIterate (v : PyVal) : Except PyExc (List PyVal) :=
  match v with
  | .pyList xs => .ok xs
  | .pyStr s => .ok (s.data.map (fun c => .pyStr (String.mk [c])))
  | .pyDict es => .ok (es.map (fun kv => .pyStr kv.1))
  | .pyInt _ => .error .typeError

/-- Rendering of a value inside an f-string (`str(v)`).  The rendering of
containers is abstracted to a fixed placeholder: no claim depends on the
repr of a container, only on strings and integers, which are rendered
exactly as Python renders them. -/
def pyStrOf : PyVal → String
  | .pyStr s => s
  | .pyInt n => Int.repr n
  | .pyList _ => "[...]"
  | .pyDict _ => "<dict>"

/-- A Python float obtained from a decimal literal, idealised as the exact
rational `num / 10 ^ denExp`.  The IEEE-754 rounding performed by the real
`float` is abstracted away: the model computes with the exact decimal
value the literal denotes. -/
structure PyFloat where
  num : Int
  denExp : Nat
deriving DecidableEq

/-- Lowercasing as performed by `str.lower` (per-character). -/
def pyLower (s : String) : String := String.mk (s.data.map Char.toLower)

/-- Suffix test as performed by `str.endswith`. -/
def pyEndsWith (s suffix : String) : Bool := List.isSuffixOf suffix.data s.data

/-- Numeric value of a list of decimal digit characters. -/
def digitsToNat (ds : List Char) : Nat :=
  ds.foldl (fun acc c => acc * 10 + (c.toNat - 48)) 0

/-- Split a character list into its leading run of decimal digits and the
rest. -/
def spanDigits (cs : List Char) : List Char × List Char :=
  (cs.takeWhile Char.isDigit, cs.dropWhile Char.isDigit)

/-- Consume an optional leading sign, returning the sign as `1` or `-1`. -/
def parseSign : List Char → Int × List Char
  | '+' :: rest => (1, rest)
  | '-' :: rest => (-1, rest)
  | cs => (1, cs)

/-- Build the exact value `sign * mantissa * 10 ^ e` as a `PyFloat`. -/
def mkPyFloat (sign : Int) (mantissa : Nat) (e : Int) : PyFloat :=
  if 0 ≤ e then ⟨sign * mantissa * (10 : Int) ^ e.toNat, 0⟩
  else ⟨sign * mantissa, (-e).toNat⟩

/-- Grammar of `float(str)` for finite decimal literals: optional
surrounding whitespace, optional sign, digits with an optional decimal
point (at least one digit), optional exponent part.  A string outside this
grammar yields `none`, modelling the `ValueError` raised by `float`.
(The special values inf and nan are outside the model.) -/
def pyFloatOfChars (cs : List Char) : Option PyFloat :=
  let cs1 := (((cs.dropWhile Char.isWhitespace).reverse.dropWhile
    Char.isWhitespace).reverse)
  let (sign, cs2) := parseSign cs1
  let (ip, cs3) := spanDigits cs2
  let (fp, cs4) :=
    match cs3 with
    | '.' :: rest => spanDigits rest
    | _ => ([], cs3)
  if ip.isEmpty && fp.isEmpty then none
  else
    match cs4 with
    | [] => some (mkPyFloat sign (digitsToNat (ip ++ fp)) (-(fp.length : Int)))
    | e :: rest =>
      if e = 'e' || e = 'E' then
        let (esign, rest2) := parseSign rest
        let (ed, rest3) := spanDigits rest2
        if ed.isEmpty || !rest3.isEmpty then none
        else some (mkPyFloat sign (digitsToNat (ip ++ fp))
          (esign * (digitsToNat ed : Int) - (fp.length : Int)))
      else none

/-- `float(s)` on a string. -/
def pyFloatOfString (s : String) : Option PyFloat := pyFloatOfChars s.data

/-- The IEEE-754 double-precision overflow threshold: rounding to nearest
maps a real number to an infinity exactly when its magnitude reaches
`2 ^ 1024 - 2 ^ 970`. -/
def overflowThreshold : Nat := 2 ^ 1024 - 2 ^ 970

/-- The value of a Python float: an exact finite decimal, an infinity, or
nan.  Finite values are idealised as exact decimals (the IEEE-754 rounding
of in-range values is abstracted away), while magnitudes at or beyond the
double overflow threshold are modelled as infinities, as in Python. -/
inductive PyFloatVal where
  | finite (f : PyFloat)
  | inf (positive : Bool)
  | nan
deriving DecidableEq

/-- The special-value grammar of `float(str)`: optional surrounding
whitespace, optional sign, then "inf", "infinity" or "nan",
case-insensitively. -/
def parseSpecialFloat (cs : List Char) : Option PyFloatVal :=
  let cs1 := (((cs.dropWhile Char.isWhitespace).reverse.dropWhile
    Char.isWhitespace).reverse)
  let (sign, cs2) := parseSign cs1
  let low := cs2.map Char.toLower
  if low = ['i', 'n', 'f'] ||
      low = ['i', 'n', 'f', 'i', 'n', 'i', 't', 'y'] then
    some (.inf (sign == 1))
  else if low = ['n', 'a', 'n'] then some .nan
  else none

/-- `float(s)` on a string, with the special values and with overflow: an
unparseable string is `none` (a `ValueError`), and a finite literal whose
magnitude reaches the double overflow threshold converts to an infinity,
never to an exception. -/
def pyFloatValOfString (s : String) : Option PyFloatVal :=
  match parseSpecialFloat s.data with
  | some v => some v
  | none =>
    match pyFloatOfChars s.data with
    | none => none
    | some f =>
      if overflowThreshold * 10 ^ f.denExp ≤ f.num.natAbs then
        some (.inf (decide (0 ≤ f.num)))
      else some (.finite f)

/-- `float(v)` on a Python value: strings are parsed (raising `ValueError`
when unparseable), integers convert exactly except that an integer whose
magnitude reaches the double overflow threshold raises `OverflowError`,
and containers raise `TypeError`. -/
def pyFloat : PyVal → Except PyExc PyFloatVal
  | .pyStr s =>
    match pyFloatValOfString s with
    | some f => .ok f
    | none => .error .valueError
  | .pyInt n =>
    if overflowThreshold ≤ n.natAbs then .error .overflowError
    else .ok (.finite ⟨n, 0⟩)
  | _ => .error .typeError

/-- `math.trunc(f * 1000.0)` on an exact finite decimal
`f = num / 10 ^ denExp`: exact multiplication by 1000 followed by
truncation toward zero (`Int.tdiv`). -/
def truncTimesThousand (f : PyFloat) : Int :=
  Int.tdiv (f.num * 1000) ((10 : Int) ^ f.denExp)

/-- `math.trunc(f * 1000.0)` on a float value: truncating an infinity
raises `OverflowError` and truncating nan raises `ValueError`, and a
finite value whose thousandfold reaches the double overflow threshold has
an infinite product and so also raises `OverflowError`. -/
def truncTimesThousandVal : PyFloatVal → Except PyExc Int
  | .finite f =>
    if overflowThreshold * 10 ^ f.denExp ≤ f.num.natAbs * 1000 then
      .error .overflowError
    else .ok (truncTimesThousand f)
  | .inf _ => .error .overflowError
  | .nan => .error .valueError

/-- `mapM` over `Except`, stopping at the first raised exception, exactly
as the loop in `_convert_data` stops at the first exception. -/
def mapMExcept (f : α → Except PyExc β) : List α → Except PyExc (List β)
  | [] => .ok []
  | x :: xs =>
    match f x with
    | .error e => .error e
    | .ok y =>
      match mapMExcept f xs with
      | .error e => .error e
      | .ok ys => .ok (y :: ys)

/-- `"\n".join(lines)`. -/
def joinWithNewline : List String → String
  | [] => ""
  | [x] => x
  | x :: xs => x ++ "\n" ++ joinWithNewline xs

/-- The state of the output directory: the files it holds, as pairs of
path and contents.  This is the only part of the filesystem the
transformer writes. -/
abbrev OutFS := List (String × String)

namespace DataTransformer

/-- `os.path.join(os.path.curdir, "output")`. -/
def outputDirectory : String := "./output"

/-- `os.path.splitext` on a basename: split at the last dot, except that a
run of leading dots never starts an extension. -/
def splitext (s : String) : String × String :=
  let cs := s.data
  match cs.reverse.findIdx? (· = '.') with
  | none => (s, "")
  | some k =>
    let i := cs.length - 1 - k
    if (cs.take i).all (· = '.') then (s, "")
    else (String.mk (cs.take i), String.mk (cs.drop i))

/-- `_get_output_filename`: strip the extension from the input basename,
append the fixed output extension, and place the file under the output
directory. -/
def getOutputFilename (fileBasename : String) : String :=
  let outputExtension := "ns-3-vtrace"
  let filename := (splitext fileBasename).1
  outputDirectory ++ "/" ++ (filename ++ "." ++ outputExtension)

/-- The body of the loop in `_convert_data`, for one frame: read the four
fields in source order, convert the timestamp to truncated milliseconds,
and render the trace line. -/
def convertFrame (frame : PyVal) : Except PyExc String :=
  match pySubscript frame "coded_picture_number" with
  | .error e => .error e
  | .ok frameNumber =>
    match pySubscript frame "pict_type" with
    | .error e => .error e
    | .ok frameType =>
      match pySubscript frame "pts_time" with
      | .error e => .error e
      | .ok frameTimeS =>
        match pyFloat frameTimeS with
        | .error e => .error e
        | .ok f =>
          match truncTimesThousandVal f with
          | .error e => .error e
          | .ok frameTimeMs =>
            match pySubscript frame "pkt_size" with
            | .error e => .error e
            | .ok frameSize =>
              .ok (pyStrOf frameNumber ++ " " ++ pyStrOf frameType ++ " " ++
                Int.repr frameTimeMs ++ " " ++ pyStrOf frameSize)

/-- `_convert_data`: subscript the json data at "frames", iterate, convert
each frame, and join the lines with newlines.  Any exception raised on the
way propagates. -/
def convertData (jsonData : PyVal) : Except PyExc String :=
  match pySubscript jsonData "frames" with
  | .error e => .error e
  | .ok framesVal =>
    match pyIterate framesVal with
    | .error e => .error e
    | .ok frames =>
      match mapMExcept convertFrame frames with
      | .error e => .error e
      | .ok lines => .ok (joinWithNewline lines)

/-- `_try_convert_data`: catches `ValueError` only, converting it into an
empty result; every other exception propagates. -/
def tryConvertData (jsonData : PyVal) : Except PyExc String :=
  match convertData jsonData with
  | .ok s => .ok s
  | .error .valueError => .ok ""
  | .error e => .error e

/-- `_write_data_to_file`: `open(path, "x")` creates the file only when no
file exists at the path; a pre-existing file raises `FileExistsError`,
which the handler for `OSError` converts into `False` with the filesystem
untouched. -/
def writeDataToFile (outputFilename : String) (transformedData : String)
    (fsys : OutFS) : Bool × OutFS :=
  match List.lookup outputFilename fsys with
  | some _ => (false, fsys)
  | none => (true, fsys ++ [(outputFilename, transformedData)])

/-- `DataTransformer.run`: convert, fail on an empty rendering, otherwise
write with exclusive-create semantics.  The result pairs the returned
boolean with the output directory state; a `.error` is an exception
escaping `run`. -/
def run (jsonData : PyVal) (fileBasename : String) (fsys : OutFS) :
    Except PyExc (Bool × OutFS) :=
  match tryConvertData jsonData with
  | .error e => .error e
  | .ok transformedData =>
    if transformedData = "" then .ok (false, fsys)
    else .ok (writeDataToFile (getOutputFilename fileBasename)
      transformedData fsys)

end DataTransformer

/-- The filesystem oracles used by the sanitiser: `os.path.exists`,
`os.path.isfile`, `os.path.basename` and `os.path.realpath`.  They model a
fixed snapshot of the filesystem during the run. -/
structure FS where
  pathExists : String → Bool
  isFile : String → Bool
  basename : String → String
  realpath : String → String

namespace InputFilesSanitiser

/-- The collision warnings logged by `_dedupe_filenames`, each naming the
kept claimant and the dropped path. -/
inductive DedupWarning where
  | sameBasename (kept dropped : String)
  | samePath (kept dropped : String)
deriving DecidableEq

/-- `_check_paths_existence`: keep the paths that exist. -/
def checkPathsExistence (fs : FS) (paths : List String) : List String :=
  paths.filter fs.pathExists

/-- `_check_paths_are_files`: keep the paths that point to files. -/
def checkPathsAreFiles (fs : FS) (paths : List String) : List String :=
  paths.filter fs.isFile

/-- The loop of `_dedupe_filenames`: walk the paths in order carrying the
`chosen_basenames` and `chosen_realpaths` dicts (as association lists),
returning the accepted paths and the warnings in emission order.  A path
whose basename is already claimed is dropped with a basename warning; one
whose realpath is already claimed is dropped with a same-file warning;
otherwise it is accepted and registers both of its keys. -/
def dedupeGo (fs : FS) (chosenBasenames chosenRealpaths :
    List (String × String)) :
    List String → List String × List DedupWarning
  | [] => ([], [])
  | filename :: rest =>
    let basename := fs.basename filename
    let realpath := fs.realpath filename
    match List.lookup basename chosenBasenames with
    | some kept =>
      let (ds, ws) := dedupeGo fs chosenBasenames chosenRealpaths rest
      (ds, .sameBasename kept filename :: ws)
    | none =>
      match List.lookup realpath chosenRealpaths with
      | some kept =>
        let (ds, ws) := dedupeGo fs chosenBasenames chosenRealpaths rest
        (ds, .samePath kept filename :: ws)
      | none =>
        let (ds, ws) := dedupeGo fs ((basename, filename) :: chosenBasenames)
          ((realpath, filename) :: chosenRealpaths) rest
        (filename :: ds, ws)

/-- `_dedupe_filenames`, with both dicts initially empty. -/
def dedupeFilenames (fs : FS) (paths : List String) : List String :=
  (dedupeGo fs [] [] paths).1

/-- `_filter_filenames`: keep the paths whose lowercased name ends in
".mp4". -/
def filterFilenames (paths : List String) : List String :=
  paths.filter (fun filename => pyEndsWith (pyLower filename) ".mp4")

/-- `InputFilesSanitiser.run`: the four stages in source order. -/
def run (fs : FS) (inputPaths : List String) : List String :=
  filterFilenames (dedupeFilenames fs
    (checkPathsAreFiles fs (checkPathsExistence fs inputPaths)))

end InputFilesSanitiser

/-- The outcome of one `subprocess.run` call: either the process completed
with an exit code and captured stdout, or it could not be launched at all
(an `OSError` such as `FileNotFoundError`). -/
inductive SubprocessOutcome where
  | completed (exitCode : Nat) (stdout : String)
  | launchFailure
deriving DecidableEq

/-- The initial `_ffprobe_path` of the class-level `Ffprobe` singleton. -/
def ffprobeInitialPath : String := "ffprobe"

/-- `is_ffprobe_available`: when the supplied path exists it is installed
into the singleton (`set_custom_path`), then the configured path is looked
up on the executable search path (`shutil.which`).  The result pairs the
returned boolean with the new singleton state. -/
def isFfprobeAvailable (pathExists which : String → Bool)
    (state executablePath : String) : Bool × String :=
  let state2 := if pathExists executablePath then executablePath else state
  (which state2, state2)

namespace DataExtractor

/-- The argument vector `_call_ffprobe` builds for the subprocess; its head
is the executable taken from the `Ffprobe` singleton. -/
def ffprobeArgs (ffprobePath inputFilename : String) : List String :=
  [ffprobePath, "-select_streams", "v:0", "-print_format", "json=compact=1",
    "-show_frames", inputFilename]

/-- `_call_ffprobe`: run the subprocess with `check=True`.  The handler
catches `CalledProcessError` only, turning a nonzero exit into empty
output; a launch failure raises an `OSError` that is not caught here. -/
def callFfprobe (proc : List String → SubprocessOutcome)
    (ffprobePath inputFilename : String) : Except PyExc String :=
  match proc (ffprobeArgs ffprobePath inputFilename) with
  | .completed 0 out => .ok out
  | .completed (_ + 1) _ => .ok ""
  | .launchFailure => .error .osError

/-- `_try_load_json_data`: decode the captured stdout with `json.loads`
(modelled as the oracle `jsonLoads`, where `none` is a decode error),
falling back to an empty dict on a decode error. -/
def tryLoadJsonData (jsonLoads : String → Option PyVal)
    (ffprobeStdout : String) : PyVal :=
  match jsonLoads ffprobeStdout with
  | some v => v
  | none => .pyDict []

/-- `DataExtractor.run`: call ffprobe and decode its output. -/
def run (jsonLoads : String → Option PyVal)
    (proc : List String → SubprocessOutcome)
    (ffprobePath inputFilename : String) : Except PyExc PyVal :=
  match callFfprobe proc ffprobePath inputFilename with
  | .error e => .error e
  | .ok rawData => .ok (tryLoadJsonData jsonLoads rawData)

end DataExtractor

namespace EntryPoint

/-- The members of the `ReturnValue` enum. -/
def SUCCESS : Nat := 0

/-- Bit reported when no valid input file is left. -/
def NO_VALID_FILE : Nat := 1

/-- Bit reported when the ffprobe executable cannot be resolved. -/
def FFPROBE_NOT_FOUND : Nat := 2

/-- Bit reported when ffprobe produced no output for some file. -/
def FFPROBE_ERROR : Nat := 4

/-- Bit reported when the data transformation failed for some file. -/
def TRANSFORM_ERROR : Nat := 8

/-- Observable pipeline stages, used to state that a stage never ran. -/
inductive PipelineEvent where
  | sanitise
  | extract (filename : String)
deriving DecidableEq

/-- The environment of one program run: argument values, the filesystem
snapshot, and the boundary collaborators. -/
structure Env where
  inputFiles : List String
  ffprobeExecutableArg : String
  disableInputDir : Bool
  inputDir : String
  inputDirIsDir : Bool
  inputDirListing : List String
  fs : FS
  which : String → Bool
  jsonLoads : String → Option PyVal
  proc : List String → SubprocessOutcome

/-- `_parse_input_directory`: a missing directory contributes nothing (a
warning only); otherwise the listing, with the first ".gitignore" entry
removed, is joined onto the directory. -/
def parseInputDirectory (env : Env) : List String :=
  if !env.inputDirIsDir then []
  else (env.inputDirListing.erase ".gitignore").map
    (fun file => env.inputDir ++ "/" ++ file)

/-- The per-file contribution `_worker_thread` ORs into the shared return
value, as a function of the extraction result and the transformer result:
a falsy extraction result contributes `FFPROBE_ERROR`; a transformer that
returns `False` contributes `TRANSFORM_ERROR`; a successful transform
contributes nothing.  An exception escaping either stage kills the worker
thread before it records any bit, so it also contributes nothing. -/
def workerContribution (jsonData : Except PyExc PyVal)
    (transformResult : Except PyExc (Bool × OutFS)) : Nat :=
  match jsonData with
  | .error _ => SUCCESS
  | .ok d =>
    if !pyTruthy d then FFPROBE_ERROR
    else
      match transformResult with
      | .error _ => SUCCESS
      | .ok (true, _) => SUCCESS
      | .ok (false, _) => TRANSFORM_ERROR

/-- `_worker_thread` for one file: extract, then (when the extraction
result is truthy) transform, pairing the recorded bit with the resulting
output-directory state. -/
def workerThread (env : Env) (ffprobePath : String) (fsys : OutFS)
    (filename : String) : Nat × OutFS :=
  match DataExtractor.run env.jsonLoads env.proc ffprobePath filename with
  | .error _ => (SUCCESS, fsys)
  | .ok jsonData =>
    if !pyTruthy jsonData then (FFPROBE_ERROR, fsys)
    else
      match DataTransformer.run jsonData (env.fs.basename filename) fsys with
      | .error _ => (SUCCESS, fsys)
      | .ok (true, fsys2) => (SUCCESS, fsys2)
      | .ok (false, fsys2) => (TRANSFORM_ERROR, fsys2)

/-- The accumulation of worker results into the shared return value: each
completing worker ORs its bit in under the lock.  The list order is the
completion order of the workers. -/
def aggregateOutcomes (initial : Nat) (contributions : List Nat) : Nat :=
  contributions.foldl (fun a b => a ||| b) initial

/-- `_spread_work`, linearised: run the workers over the sanitized list,
threading the output-directory state, and OR their bits together. -/
def spreadWork (env : Env) (ffprobePath : String) (fsys : OutFS)
    (files : List String) : Nat × OutFS :=
  files.foldl (fun acc f =>
    let (bit, fsys2) := workerThread env ffprobePath acc.2 f
    (acc.1 ||| bit, fsys2)) (SUCCESS, fsys)

/-- `EntryPoint.run`: check tool availability (which configures the
`Ffprobe` singleton), merge the argument paths with the scanned directory,
sanitize, and dispatch the workers.  The result pairs the return value
with the list of pipeline stages that ran. -/
def run (env : Env) : Nat × List PipelineEvent :=
  let (available, ffprobePath) := isFfprobeAvailable env.fs.pathExists
    env.which ffprobeInitialPath env.ffprobeExecutableArg
  if !available then (FFPROBE_NOT_FOUND, [])
  else
    let inputFilenames := env.inputFiles ++
      (if env.disableInputDir then [] else parseInputDirectory env)
    if inputFilenames.isEmpty then (NO_VALID_FILE, [])
    else
      let sanitized := InputFilesSanitiser.run env.fs inputFilenames
      if sanitized.isEmpty then (NO_VALID_FILE, [.sanitise])
      else ((spreadWork env ffprobePath [] sanitized).1,
        .sanitise :: sanitized.map PipelineEvent.extract)

end EntryPoint

/-- Spec-side collision test between a kept path and a candidate: equal
base filename or equal canonical path.  This follows the wording of the
specification and is compared with the implementation. -/
def specCollides (fs : FS) (q p : String) : Bool :=
  fs.basename q == fs.basename p || fs.realpath q == fs.realpath p

/-- Spec-side deduplication, following the wording of the specification:
walk the paths in original order; drop a path when it collides, on either
key, with some already-kept path (first-seen-wins), otherwise keep it. -/
def specKeepFirstSeen (fs : FS) (kept : List String) :
    List String → List String
  | [] => []
  | p :: ps =>
    if kept.any (fun q => specCollides fs q p) then
      specKeepFirstSeen fs kept ps
    else p :: specKeepFirstSeen fs (kept ++ [p]) ps

/-- Concrete filesystem fixture: every path exists and is a file, and the
basename and realpath oracles are the identity. -/
def fixtureFS : FS :=
  { pathExists := fun _ => true, isFile := fun _ => true,
    basename := fun s => s, realpath := fun s => s }

/-- Concrete frame record fixture with the timestamp of interest. -/
def fixtureFrame : PyVal :=
  .pyDict [("coded_picture_number", .pyInt 0), ("pict_type", .pyStr "I"),
    ("pts_time", .pyStr "1.9999"), ("pkt_size", .pyStr "100")]

/-- Concrete ffprobe json fixture holding one frame. -/
def fixtureJson : PyVal := .pyDict [("frames", .pyList [fixtureFrame])]

/-- The output directory state produced by transforming `fixtureJson` for
basename "a.mp4" starting from an empty output directory. -/
def fixtureOutFS : OutFS := [("./output/a.ns-3-vtrace", "0 I 1999 100")]

/-- Concrete environment fixture in which the ffprobe executable cannot be
resolved. -/
def fixtureEnv : EntryPoint.Env :=
  { inputFiles := ["a.mp4"], ffprobeExecutableArg := "",
    disableInputDir := true, inputDir := "input", inputDirIsDir := false,
    inputDirListing := [], fs := fixtureFS, which := fun _ => false,
    jsonLoads := fun _ => none, proc := fun _ => .completed 0 "" }

instance : RightCommutative (fun (a b : Nat) => a ||| b) :=
  ⟨fun a b c => by rw [Nat.or_assoc, Nat.or_assoc, Nat.or_comm b c]⟩

lemma dedupeGo_fst_eq_keep (fs : FS) :
    ∀ (l : List String) (cb cr : List (String × String)) (ks : List String),
    (∀ s, (List.lookup s cb).isSome = ks.any (fun q => fs.basename q == s)) →
    (∀ s, (List.lookup s cr).isSome = ks.any (fun q => fs.realpath q == s)) →
    (InputFilesSanitiser.dedupeGo fs cb cr l).1 = specKeepFirstSeen fs ks l := by
  intro l
  induction l with
  | nil => intro cb cr ks hb hr; rfl
  | cons p rest ih =>
    intro cb cr ks hb hr
    rw [InputFilesSanitiser.dedupeGo, specKeepFirstSeen]
    rcases hcb : List.lookup (fs.basename p) cb with _ | k1
    · rcases hcr : List.lookup (fs.realpath p) cr with _ | k2
      · have hb2 : ks.any (fun q => fs.basename q == fs.basename p) = false := by
          have := hb (fs.basename p); rw [hcb] at this; exact this.symm
        have hr2 : ks.any (fun q => fs.realpath q == fs.realpath p) = false := by
          have := hr (fs.realpath p); rw [hcr] at this; exact this.symm
        have hno : ks.any (fun q => specCollides fs q p) = false := by
          rw [Bool.eq_false_iff]
          intro hsome
          rw [List.any_eq_true] at hsome
          obtain ⟨q, hq, hcol⟩ := hsome
          rw [specCollides, Bool.or_eq_true] at hcol
          rcases hcol with hcol | hcol
          · have : ks.any (fun q => fs.basename q == fs.basename p) = true :=
              List.any_eq_true.mpr ⟨q, hq, hcol⟩
            rw [hb2] at this; exact Bool.false_ne_true this
          · have : ks.any (fun q => fs.realpath q == fs.realpath p) = true :=
              List.any_eq_true.mpr ⟨q, hq, hcol⟩
            rw [hr2] at this; exact Bool.false_ne_true this
        rw [hno]
        simp only [Bool.false_eq_true, if_false]
        have hrec := ih ((fs.basename p, p) :: cb) ((fs.realpath p, p) :: cr)
          (ks ++ [p]) ?_ ?_
        · simp only [hrec]
        · intro s
          rw [List.lookup_cons, List.any_append]
          rcases hsb : s == fs.basename p with _ | _
          · have : (fs.basename p == s) = false := by
              rw [beq_eq_false_iff_ne] at hsb ⊢
              exact fun hEq => hsb hEq.symm
            simp [hsb, this, hb s]
          · have : (fs.basename p == s) = true := by
              simp only [beq_iff_eq] at hsb ⊢; exact hsb.symm
            simp [hsb, this]
        · intro s
          rw [List.lookup_cons, List.any_append]
          rcases hsr : s == fs.realpath p with _ | _
          · have : (fs.realpath p == s) = false := by
              rw [beq_eq_false_iff_ne] at hsr ⊢
              exact fun hEq => hsr hEq.symm
            simp [hsr, this, hr s]
          · have : (fs.realpath p == s) = true := by
              simp only [beq_iff_eq] at hsr ⊢; exact hsr.symm
            simp [hsr, this]
      · have hyes : ks.any (fun q => specCollides fs q p) = true := by
          have := hr (fs.realpath p); rw [hcr] at this
          have h2 : ks.any (fun q => fs.realpath q == fs.realpath p) = true :=
            this.symm
          rw [List.any_eq_true] at h2
          obtain ⟨q, hq, hqr⟩ := h2
          exact List.any_eq_true.mpr ⟨q, hq, by
            rw [specCollides, Bool.or_eq_true]; exact Or.inr hqr⟩
        rw [hyes]
        simp only [if_true]
        exact ih cb cr ks hb hr
    · have hyes : ks.any (fun q => specCollides fs q p) = true := by
        have := hb (fs.basename p); rw [hcb] at this
        have h2 : ks.any (fun q => fs.basename q == fs.basename p) = true :=
          this.symm
        rw [List.any_eq_true] at h2
        obtain ⟨q, hq, hqb⟩ := h2
        exact List.any_eq_true.mpr ⟨q, hq, by
          rw [specCollides, Bool.or_eq_true]; exact Or.inl hqb⟩
      rw [hyes]
      simp only [if_true]
      exact ih cb cr ks hb hr

lemma dedupeFilenames_eq_keep (fs : FS) (paths : List String) :
    InputFilesSanitiser.dedupeFilenames fs paths =
      specKeepFirstSeen fs [] paths := by
  rw [InputFilesSanitiser.dedupeFilenames]
  exact dedupeGo_fst_eq_keep fs paths [] [] []
    (fun s => by simp [List.lookup]) (fun s => by simp [List.lookup])

lemma keep_sublist (fs : FS) :
    ∀ (l ks : List String), (specKeepFirstSeen fs ks l).Sublist l := by
  intro l
  induction l with
  | nil => intro ks; exact List.Sublist.refl _
  | cons p rest ih =>
    intro ks
    rw [specKeepFirstSeen]
    rcases h : ks.any (fun q => specCollides fs q p) with _ | _
    · simp only [Bool.false_eq_true, if_false]
      exact List.Sublist.cons₂ p (ih (ks ++ [p]))
    · simp only [if_true]
      exact List.Sublist.cons p (ih ks)

lemma keep_map_nodup (fs : FS) (g : String → String)
    (hg : ∀ q p, g q = g p → specCollides fs q p = true) :
    ∀ (l ks : List String), ((ks.map g).Nodup) →
    ((ks ++ specKeepFirstSeen fs ks l).map g).Nodup := by
  intro l
  induction l with
  | nil =>
    intro ks h
    rw [specKeepFirstSeen]
    simpa using h
  | cons p rest ih =>
    intro ks h
    rw [specKeepFirstSeen]
    rcases hc : ks.any (fun q => specCollides fs q p) with _ | _
    · simp only [Bool.false_eq_true, if_false]
      rw [List.append_cons]
      apply ih (ks ++ [p])
      rw [List.map_append, List.nodup_append]
      refine ⟨h, by simp, ?_⟩
      intro x hx
      simp only [List.map_cons, List.map_nil, List.mem_singleton]
      intro hxs
      subst hxs
      rw [List.mem_map] at hx
      obtain ⟨q, hq, hgq⟩ := hx
      have : specCollides fs q p = true := hg q p hgq
      have : ks.any (fun q => specCollides fs q p) = true :=
        List.any_eq_true.mpr ⟨q, hq, this⟩
      rw [hc] at this
      exact Bool.false_ne_true this
    · simp only [if_true]
      exact ih ks h

/-- C1: for every input list of path strings, the output of the Sanitiser
is an order-preserving subsequence of the input in which no two entries
share a base filename, no two entries share a canonical path, and every
entry exists, is a regular file, and has a name ending case-insensitively
in ".mp4". -/
theorem sanitiser_run_sound (fs : FS) (inputPaths : List String) :
    (InputFilesSanitiser.run fs inputPaths).Sublist inputPaths ∧
    ((InputFilesSanitiser.run fs inputPaths).map fs.basename).Nodup ∧
    ((InputFilesSanitiser.run fs inputPaths).map fs.realpath).Nodup ∧
    (InputFilesSanitiser.run fs inputPaths).all
      (fun p => fs.pathExists p && fs.isFile p &&
        pyEndsWith (pyLower p) ".mp4") = true := by
  have hrun : InputFilesSanitiser.run fs inputPaths =
      InputFilesSanitiser.filterFilenames (specKeepFirstSeen fs []
        (InputFilesSanitiser.checkPathsAreFiles fs
          (InputFilesSanitiser.checkPathsExistence fs inputPaths))) := by
    rw [InputFilesSanitiser.run, dedupeFilenames_eq_keep]
  have hsubD : (InputFilesSanitiser.run fs inputPaths).Sublist
      (specKeepFirstSeen fs [] (InputFilesSanitiser.checkPathsAreFiles fs
        (InputFilesSanitiser.checkPathsExistence fs inputPaths))) := by
    rw [hrun]; exact List.filter_sublist _
  refine ⟨?_, ?_, ?_, ?_⟩
  · exact hsubD.trans ((keep_sublist fs _ []).trans
      ((List.filter_sublist _).trans (List.filter_sublist _)))
  · have hnd : ((specKeepFirstSeen fs []
        (InputFilesSanitiser.checkPathsAreFiles fs
          (InputFilesSanitiser.checkPathsExistence fs
            inputPaths))).map fs.basename).Nodup := by
      have := keep_map_nodup fs fs.basename
        (fun q p h => by simp [specCollides, h])
        (InputFilesSanitiser.checkPathsAreFiles fs
          (InputFilesSanitiser.checkPathsExistence fs inputPaths)) []
        (by simp)
      simpa using this
    exact List.Nodup.sublist (hsubD.map fs.basename) hnd
  · have hnd : ((specKeepFirstSeen fs []
        (InputFilesSanitiser.checkPathsAreFiles fs
          (InputFilesSanitiser.checkPathsExistence fs
            inputPaths))).map fs.realpath).Nodup := by
      have := keep_map_nodup fs fs.realpath
        (fun q p h => by simp [specCollides, h])
        (InputFilesSanitiser.checkPathsAreFiles fs
          (InputFilesSanitiser.checkPathsExistence fs inputPaths)) []
        (by simp)
      simpa using this
    exact List.Nodup.sublist (hsubD.map fs.realpath) hnd
  · rw [List.all_eq_true]
    intro p hp
    rw [hrun, InputFilesSanitiser.filterFilenames, List.mem_filter] at hp
    obtain ⟨hpD, hext⟩ := hp
    have hpL1 : p ∈ InputFilesSanitiser.checkPathsAreFiles fs
        (InputFilesSanitiser.checkPathsExistence fs inputPaths) :=
      (keep_sublist fs _ []).subset hpD
    rw [InputFilesSanitiser.checkPathsAreFiles, List.mem_filter] at hpL1
    obtain ⟨hpL0, hfile⟩ := hpL1
    rw [InputFilesSanitiser.checkPathsExistence, List.mem_filter] at hpL0
    obtain ⟨_, hex⟩ := hpL0
    simp [hex, hfile, hext]

/-- C4: the deduplication stage drops a path exactly when its base
filename or its canonical path already has a claimant among the earlier
survivors (each key rejects independently, first-seen-wins), and the
base-filename key is checked before the canonical-path key: when both keys
already have claimants the path is dropped with the basename collision
warning. -/
theorem dedupe_two_key_first_seen (fs : FS) (paths : List String)
    (cb cr : List (String × String)) (p : String) (rest : List String)
    (k1 k2 : String)
    (hb : List.lookup (fs.basename p) cb = some k1)
    (hr : List.lookup (fs.realpath p) cr = some k2) :
    InputFilesSanitiser.dedupeFilenames fs paths =
      specKeepFirstSeen fs [] paths ∧
    (InputFilesSanitiser.dedupeGo fs cb cr (p :: rest)).1 =
      (InputFilesSanitiser.dedupeGo fs cb cr rest).1 ∧
    (InputFilesSanitiser.dedupeGo fs cb cr (p :: rest)).2 =
      InputFilesSanitiser.DedupWarning.sameBasename k1 p ::
        (InputFilesSanitiser.dedupeGo fs cb cr rest).2 := by
  rcases hgo : InputFilesSanitiser.dedupeGo fs cb cr rest with ⟨ds, ws⟩
  refine ⟨dedupeFilenames_eq_keep fs paths, ?_, ?_⟩ <;>
    simp [InputFilesSanitiser.dedupeGo, hb, hgo]

/-- Witness for C4 at a concrete state in which both keys already have
claimants. -/
theorem dedupe_two_key_first_seen_witness :
    InputFilesSanitiser.dedupeFilenames fixtureFS ["a.mp4", "a.mp4"] =
      specKeepFirstSeen fixtureFS [] ["a.mp4", "a.mp4"] ∧
    (InputFilesSanitiser.dedupeGo fixtureFS [("a.mp4", "x/a.mp4")]
      [("a.mp4", "y/a.mp4")] ["a.mp4"]).1 =
      (InputFilesSanitiser.dedupeGo fixtureFS [("a.mp4", "x/a.mp4")]
        [("a.mp4", "y/a.mp4")] []).1 ∧
    (InputFilesSanitiser.dedupeGo fixtureFS [("a.mp4", "x/a.mp4")]
      [("a.mp4", "y/a.mp4")] ["a.mp4"]).2 =
      InputFilesSanitiser.DedupWarning.sameBasename "x/a.mp4" "a.mp4" ::
        (InputFilesSanitiser.dedupeGo fixtureFS [("a.mp4", "x/a.mp4")]
          [("a.mp4", "y/a.mp4")] []).2 :=
  dedupe_two_key_first_seen fixtureFS ["a.mp4", "a.mp4"]
    [("a.mp4", "x/a.mp4")] [("a.mp4", "y/a.mp4")] "a.mp4" []
    "x/a.mp4" "y/a.mp4" (by decide) (by decide)

lemma lookup_append_none {β : Type} {l1 l2 : List (String × β)} {a : String}
    (h : List.lookup a l1 = none) :
    List.lookup a (l1 ++ l2) = List.lookup a l2 := by
  induction l1 with
  | nil => rfl
  | cons kv l1 ih =>
    obtain ⟨k, v⟩ := kv
    rw [List.lookup_cons] at h
    rcases hk : a == k with _ | _
    · rw [hk] at h
      rw [List.cons_append, List.lookup_cons, hk]
      exact ih h
    · rw [hk] at h; exact absurd h (by simp)

/-- C5: the rendered timestamp is the fractional-seconds value multiplied
by 1000 and truncated, not rounded: for a nonnegative timestamp
`num / 10 ^ e` the rendered integer `t` satisfies
`10 ^ e * t ≤ num * 1000 < 10 ^ e * (t + 1)`; in particular a frame with
pts_time "1.9999" renders the timestamp 1999, not 2000. -/
theorem timestamp_truncation (num : Int) (e : Nat) (hnn : 0 ≤ num) :
    ((10 : Int) ^ e * truncTimesThousand ⟨num, e⟩ ≤ num * 1000 ∧
      num * 1000 < (10 : Int) ^ e * (truncTimesThousand ⟨num, e⟩ + 1)) ∧
    pyFloatOfString "1.9999" = some ⟨19999, 4⟩ ∧
    DataTransformer.convertFrame fixtureFrame = .ok "0 I 1999 100" := by
  refine ⟨?_, rfl, rfl⟩
  have ha : (0 : Int) ≤ num * 1000 := mul_nonneg hnn (by norm_num)
  have hb : (0 : Int) < 10 ^ e := pow_pos (by norm_num) e
  have ht : truncTimesThousand ⟨num, e⟩ = (num * 1000) / 10 ^ e := by
    rw [truncTimesThousand]
    exact Int.tdiv_eq_ediv ha (le_of_lt hb)
  have hd := Int.ediv_add_emod (num * 1000) (10 ^ e)
  have hr0 := Int.emod_nonneg (num * 1000) (ne_of_gt hb)
  have hrb := Int.emod_lt_of_pos (num * 1000) hb
  rw [ht]
  constructor
  · linarith
  · rw [mul_add, mul_one]; linarith

/-- Witness for C5 at the concrete timestamp 1.9999 seconds. -/
theorem timestamp_truncation_witness :
    ((10 : Int) ^ 4 * truncTimesThousand ⟨19999, 4⟩ ≤ 19999 * 1000 ∧
      19999 * 1000 < (10 : Int) ^ 4 * (truncTimesThousand ⟨19999, 4⟩ + 1)) ∧
    pyFloatOfString "1.9999" = some ⟨19999, 4⟩ ∧
    DataTransformer.convertFrame fixtureFrame = .ok "0 I 1999 100" :=
  timestamp_truncation 19999 4 (by decide)

/-- C7: transforming a record set with zero frames returns failure and
creates no output file. -/
theorem transform_empty_record_set (jsonData : PyVal) (fileBasename : String)
    (fsys : OutFS) (h : pySubscript jsonData "frames" = .ok (.pyList [])) :
    DataTransformer.run jsonData fileBasename fsys = .ok (false, fsys) := by
  have hconv : DataTransformer.convertData jsonData = .ok "" := by
    rw [DataTransformer.convertData, h]
    rfl
  have htry : DataTransformer.tryConvertData jsonData = .ok "" := by
    rw [DataTransformer.tryConvertData, hconv]
  rw [DataTransformer.run, htry]
  simp

/-- Witness for C7: an empty frames list yields failure and an unchanged
output directory. -/
theorem transform_empty_record_set_witness :
    DataTransformer.run (.pyDict [("frames", .pyList [])]) "a.mp4" [] =
      .ok (false, []) :=
  transform_empty_record_set (.pyDict [("frames", .pyList [])]) "a.mp4" []
    rfl

/-- C6: when a Transform call succeeds, calling Transform again for the
same derived output path fails (exclusive-create semantics) and leaves the
output directory, including the file written by the first call,
unchanged. -/
theorem transform_second_call_fails (jsonData : PyVal) (fileBasename : String)
    (fsys fsys1 : OutFS)
    (h : DataTransformer.run jsonData fileBasename fsys = .ok (true, fsys1)) :
    DataTransformer.run jsonData fileBasename fsys1 = .ok (false, fsys1) := by
  rw [DataTransformer.run] at h ⊢
  rcases he : DataTransformer.tryConvertData jsonData with e | s
  · rw [he] at h
    simp at h
  · rw [he] at h
    by_cases hs : s = ""
    · rw [hs] at h
      simp at h
    · have h2 : (if s = "" then Except.ok (false, fsys)
          else Except.ok (DataTransformer.writeDataToFile
            (DataTransformer.getOutputFilename fileBasename) s fsys)) =
          Except.ok ((true : Bool), fsys1) := h
      rw [if_neg hs] at h2
      simp only [Except.ok.injEq] at h2
      rw [DataTransformer.writeDataToFile] at h2
      show (if s = "" then Except.ok (false, fsys1)
        else Except.ok (DataTransformer.writeDataToFile
          (DataTransformer.getOutputFilename fileBasename) s fsys1)) =
        Except.ok ((false : Bool), fsys1)
      rw [if_neg hs]
      rcases hl : List.lookup (DataTransformer.getOutputFilename fileBasename)
          fsys with _ | c
      · rw [hl] at h2
        simp only [Prod.mk.injEq] at h2
        obtain ⟨_, hf⟩ := h2
        rw [DataTransformer.writeDataToFile, ← hf,
          lookup_append_none hl, List.lookup_cons]
        simp
      · rw [hl] at h2
        simp at h2

/-- Witness for C6: the concrete one-frame record set is written once and
the second call fails with the file contents intact. -/
theorem transform_second_call_fails_witness :
    DataTransformer.run fixtureJson "a.mp4" fixtureOutFS =
      .ok (false, fixtureOutFS) :=
  transform_second_call_fails fixtureJson "a.mp4" [] fixtureOutFS rfl

/-- C3 counterexample: a subprocess launch failure raises an OSError that
`_call_ffprobe` does not catch (it catches CalledProcessError only), so
the claim that the extractor returns an empty result on any launch
failure, with no exception escaping, is false. -/
theorem extractor_launch_failure_escapes :
    DataExtractor.run (fun _ => none) (fun _ => .launchFailure)
      "ffprobe" "f.mp4" = .error .osError := rfl

/-- C3 amended: on a nonzero exit status of the probing subprocess and on
output that fails to parse as JSON, the extractor returns an empty dict
and no exception escapes; a subprocess launch failure, however, raises an
uncaught exception.  The hypothesis records that the empty byte string is
not valid JSON. -/
theorem extractor_empty_on_failures (jsonLoads : String → Option PyVal)
    (proc : List String → SubprocessOutcome)
    (ffprobePath inputFilename : String)
    (hempty : jsonLoads "" = none) :
    (∀ n out, proc (DataExtractor.ffprobeArgs ffprobePath inputFilename) =
        .completed (n + 1) out →
      DataExtractor.run jsonLoads proc ffprobePath inputFilename =
        .ok (.pyDict [])) ∧
    (∀ out, proc (DataExtractor.ffprobeArgs ffprobePath inputFilename) =
        .completed 0 out → jsonLoads out = none →
      DataExtractor.run jsonLoads proc ffprobePath inputFilename =
        .ok (.pyDict [])) := by
  constructor
  · intro n out hp
    rw [DataExtractor.run, DataExtractor.callFfprobe, hp]
    simp [DataExtractor.tryLoadJsonData, hempty]
  · intro out hp hparse
    rw [DataExtractor.run, DataExtractor.callFfprobe, hp]
    simp [DataExtractor.tryLoadJsonData, hparse]

/-- Witness for the amended C3: a nonzero exit yields the empty dict. -/
theorem extractor_empty_on_failures_witness :
    DataExtractor.run (fun _ => none) (fun _ => .completed 1 "not json")
      "ffprobe" "f.mp4" = .ok (.pyDict []) :=
  (extractor_empty_on_failures (fun _ => none)
    (fun _ => .completed 1 "not json") "ffprobe" "f.mp4" rfl).1 0 "not json"
    rfl

/-- C8: when the probing tool cannot be resolved, the Dispatcher's run
performs no sanitization and no extraction (no pipeline event occurs) and
returns exactly the FFPROBE_NOT_FOUND bit, which is 2, with no other bits
set. -/
theorem tool_unavailable_short_circuit (env : EntryPoint.Env)
    (h : (isFfprobeAvailable env.fs.pathExists env.which ffprobeInitialPath
      env.ffprobeExecutableArg).1 = false) :
    EntryPoint.run env = (EntryPoint.FFPROBE_NOT_FOUND, []) ∧
    EntryPoint.FFPROBE_NOT_FOUND = 2 := by
  refine ⟨?_, rfl⟩
  simp only [isFfprobeAvailable] at h
  simp [EntryPoint.run, isFfprobeAvailable, h]

/-- Witness for C8 in the concrete environment without a resolvable
ffprobe. -/
theorem tool_unavailable_short_circuit_witness :
    EntryPoint.run fixtureEnv = (EntryPoint.FFPROBE_NOT_FOUND, []) ∧
    EntryPoint.FFPROBE_NOT_FOUND = 2 :=
  tool_unavailable_short_circuit fixtureEnv rfl

/-- C9: when one file's extraction fails and another file's transform
fails, the aggregated OutcomeCode is FFPROBE_ERROR ||| TRANSFORM_ERROR for
every completion order of the two workers: the bitwise-OR accumulation is
order-independent. -/
theorem outcome_aggregation_order_independent
    (jsonA jsonB : Except PyExc PyVal) (tA tB : Except PyExc (Bool × OutFS))
    (dB : PyVal) (fsysB : OutFS) (order : List Nat)
    (hA : jsonA = .ok (.pyDict []))
    (hB : jsonB = .ok dB) (hdB : pyTruthy dB = true)
    (htB : tB = .ok (false, fsysB))
    (hperm : order.Perm [EntryPoint.workerContribution jsonA tA,
      EntryPoint.workerContribution jsonB tB]) :
    EntryPoint.aggregateOutcomes EntryPoint.SUCCESS order =
      (EntryPoint.FFPROBE_ERROR ||| EntryPoint.TRANSFORM_ERROR) := by
  subst hA hB htB
  have hca : EntryPoint.workerContribution (.ok (.pyDict [])) tA =
      EntryPoint.FFPROBE_ERROR := by
    simp [EntryPoint.workerContribution, pyTruthy]
  have hcb : EntryPoint.workerContribution (.ok dB) (.ok (false, fsysB)) =
      EntryPoint.TRANSFORM_ERROR := by
    simp [EntryPoint.workerContribution, hdB]
  rw [hca, hcb] at hperm
  have heq : List.foldl (fun a b => a ||| b) EntryPoint.SUCCESS order =
      List.foldl (fun a b => a ||| b) EntryPoint.SUCCESS
        [EntryPoint.FFPROBE_ERROR, EntryPoint.TRANSFORM_ERROR] :=
    hperm.foldl_eq EntryPoint.SUCCESS
  rw [EntryPoint.aggregateOutcomes, heq]
  decide

/-- Witness for C9 with the two failure bits arriving in reversed
completion order. -/
theorem outcome_aggregation_order_independent_witness :
    EntryPoint.aggregateOutcomes EntryPoint.SUCCESS
      [EntryPoint.TRANSFORM_ERROR, EntryPoint.FFPROBE_ERROR] =
      (EntryPoint.FFPROBE_ERROR ||| EntryPoint.TRANSFORM_ERROR) :=
  outcome_aggregation_order_independent (.ok (.pyDict []))
    (.ok (.pyStr "x")) (.ok (true, [])) (.ok (false, [])) (.pyStr "x") []
    [EntryPoint.TRANSFORM_ERROR, EntryPoint.FFPROBE_ERROR]
    rfl rfl rfl rfl (by decide)

/-- C10: when the supplied path exists, the availability check installs it
into the class-level Ffprobe singleton (the returned state), and every
subsequent extractor invocation builds its subprocess command with that
executable: the check is a state mutation, not a pure query. -/
theorem availability_check_configures_extractions
    (pathExists which : String → Bool)
    (state executablePath inputFilename : String)
    (h : pathExists executablePath = true) :
    (isFfprobeAvailable pathExists which state executablePath).2 =
      executablePath ∧
    DataExtractor.ffprobeArgs
        (isFfprobeAvailable pathExists which state executablePath).2
        inputFilename =
      executablePath :: ["-select_streams", "v:0", "-print_format",
        "json=compact=1", "-show_frames", inputFilename] := by
  simp [isFfprobeAvailable, h, DataExtractor.ffprobeArgs]

/-- Witness for C10 with a concrete custom executable path. -/
theorem availability_check_configures_extractions_witness :
    (isFfprobeAvailable (fun _ => true) (fun _ => true) "ffprobe"
      "/usr/bin/ffprobe").2 = "/usr/bin/ffprobe" ∧
    DataExtractor.ffprobeArgs
        (isFfprobeAvailable (fun _ => true) (fun _ => true) "ffprobe"
          "/usr/bin/ffprobe").2 "f.mp4" =
      "/usr/bin/ffprobe" :: ["-select_streams", "v:0", "-print_format",
        "json=compact=1", "-show_frames", "f.mp4"] :=
  availability_check_configures_extractions (fun _ => true) (fun _ => true)
    "ffprobe" "/usr/bin/ffprobe" "f.mp4" rfl
